import Mathlib

/-!
Shallow embedding of the yt_weba_download_v2 acquisition pipeline.

The definitions below are translated from the repository sources:
* `src/youtube_downloader.py` — `RateLimiter`, `YouTubeDownloader.download_video`,
  `YouTubeDownloader.print_summary`;
* `src/turboscribe_batch.py` — `TurboScribeBatch.process_single_url`,
  `TurboScribeBatch.process_batch`, `TurboScribeBatch.print_summary`;
* `src/batch_from_file_parallel.py` — `ParallelAudioDownloader`.

External collaborators (the HTTP transport, the filesystem, the yt-dlp
extraction library, the HTML link extractor, random jitter sampling and
wall-clock time) are modelled as explicit oracle parameters; all control
flow, state updates and arithmetic are translated from the source.
Times and delays are rationals; Python integers are `Int`.
-/

namespace YTWeba

/-! ## RateLimiter (src/youtube_downloader.py, lines 32-100)

State fields mirror `RateLimiter.__init__`.  The sampled jitter
`random.uniform(a, b)` and the current wall-clock `time.time()` are passed
in as parameters; `time.sleep` is modelled by advancing the clock, so after
a pacing call the recorded timestamp is the time at which the sleep ends. -/

structure RateLimiter where
  min_delay : ℚ
  max_delay : ℚ
  download_delay_min : ℚ
  download_delay_max : ℚ
  last_request_time : ℚ
  last_download_time : ℚ
  error_count : ℤ
deriving DecidableEq, Repr

/-- `RateLimiter.__init__` with the default constructor arguments
(`min_delay=3.0, max_delay=5.0, download_delay_min=5.0,
download_delay_max=10.0`); timestamps and the error counter start at 0. -/
def RateLimiter.init : RateLimiter :=
  { min_delay := 3, max_delay := 5, download_delay_min := 5, download_delay_max := 10
    last_request_time := 0, last_download_time := 0, error_count := 0 }

/-- The backoff term added inside `wait_for_request`:
`min(2 ** self.error_count, 60)` when `self.error_count > 0`, else nothing. -/
def requestBackoff (rl : RateLimiter) : ℚ :=
  if 0 < rl.error_count then min ((2 : ℚ) ^ rl.error_count.toNat) 60 else 0

/-- The total delay computed by `wait_for_request`:
`delay = random.uniform(min_delay, max_delay)` plus the error backoff.
`jitter` is the sampled uniform value. -/
def requestDelay (rl : RateLimiter) (jitter : ℚ) : ℚ :=
  jitter + requestBackoff rl

/-- `RateLimiter.wait_for_request` (lines 57-73): compute the jittered,
backoff-augmented delay, sleep until `delay` seconds have elapsed since
`last_request_time`, then stamp `last_request_time`. -/
def wait_for_request (rl : RateLimiter) (jitter now : ℚ) : RateLimiter :=
  let delay := requestDelay rl jitter
  let elapsed := now - rl.last_request_time
  let finish := if elapsed < delay then now + (delay - elapsed) else now
  { rl with last_request_time := finish }

/-- `RateLimiter.wait_for_download` (lines 75-85): the same pacing scheme
against `last_download_time` with the download delay bounds and no
error-backoff term. -/
def wait_for_download (rl : RateLimiter) (jitter now : ℚ) : RateLimiter :=
  let delay := jitter
  let elapsed := now - rl.last_download_time
  let finish := if elapsed < delay then now + (delay - elapsed) else now
  { rl with last_download_time := finish }

/-- The 403 penalty ladder `wait_times = [30, 60, 120]` of `on_error`. -/
def waitTimes : List ℤ := [30, 60, 120]

/-- Python list indexing `l[i]` for an `Int` index: non-negative indices
read from the front, negative indices wrap from the back, out-of-range is
an `IndexError` (`none`). -/
def pyGet (l : List ℤ) (i : ℤ) : Option ℤ :=
  if 0 ≤ i then l.get? i.toNat
  else if 0 ≤ i + l.length then l.get? (i + l.length).toNat else none

/-- `RateLimiter.on_error` (lines 87-96): increment `error_count`; if the
error code is 403, additionally sleep
`wait_times[min(self.error_count - 1, len(wait_times) - 1)]` seconds.
Returns the new state and the synchronous sleep performed, if any. -/
def on_error (rl : RateLimiter) (error_code : Option ℤ) : RateLimiter × Option ℤ :=
  let rl := { rl with error_count := rl.error_count + 1 }
  if error_code = some 403 then
    (rl, pyGet waitTimes (min (rl.error_count - 1) ((waitTimes.length : ℤ) - 1)))
  else
    (rl, none)

/-- `RateLimiter.on_success` (lines 98-100): reset `error_count` to 0. -/
def on_success (rl : RateLimiter) : RateLimiter :=
  { rl with error_count := 0 }

/-- State after `k` consecutive `on_error(403)` calls. -/
def stateAfterErrors (rl : RateLimiter) : ℕ → RateLimiter
  | 0 => rl
  | k + 1 => (on_error (stateAfterErrors rl k) (some 403)).1

/-- The synchronous sleep performed by the `k`-th (1-indexed) consecutive
`on_error(403)` call starting from `rl`. -/
def sleepAtCall (rl : RateLimiter) (k : ℕ) : Option ℤ :=
  (on_error (stateAfterErrors rl (k - 1)) (some 403)).2

/-- One operation of the `RateLimiter` interface. -/
inductive RLOp
  | waitRequest (jitter now : ℚ)
  | waitDownload (jitter now : ℚ)
  | reportError (code : Option ℤ)
  | reportSuccess

/-- Apply one `RateLimiter` operation to a state. -/
def RLOp.apply (rl : RateLimiter) : RLOp → RateLimiter
  | .waitRequest j n => wait_for_request rl j n
  | .waitDownload j n => wait_for_download rl j n
  | .reportError c => (on_error rl c).1
  | .reportSuccess => on_success rl

/-- Run a sequence of `RateLimiter` operations from a state. -/
def runOps (rl : RateLimiter) (ops : List RLOp) : RateLimiter :=
  ops.foldl RLOp.apply rl

theorem stateAfterErrors_error_count (rl : RateLimiter) :
    ∀ k : ℕ, (stateAfterErrors rl k).error_count = rl.error_count + k := by
  intro k
  induction k with
  | zero => simp [stateAfterErrors]
  | succ n ih =>
      simp only [stateAfterErrors, on_error]
      split <;> simp [ih] <;> ring

theorem runOps_error_count_nonneg (rl : RateLimiter) (h : 0 ≤ rl.error_count) :
    ∀ ops : List RLOp, 0 ≤ (runOps rl ops).error_count := by
  intro ops
  induction ops generalizing rl with
  | nil => simpa [runOps] using h
  | cons op rest ih =>
      have hstep : 0 ≤ (RLOp.apply rl op).error_count := by
        cases op with
        | waitRequest j n => simpa [RLOp.apply, wait_for_request] using h
        | waitDownload j n => simpa [RLOp.apply, wait_for_download] using h
        | reportError c =>
            simp only [RLOp.apply, on_error]
            split <;> simp <;> omega
        | reportSuccess => simp [RLOp.apply, on_success]
      simpa [runOps, List.foldl_cons] using ih (RLOp.apply rl op) hstep

/-- C3: for every rate-limiter state with `error_count = n > 0`, the delay
computed by `wait_for_request` is exactly the sampled jitter plus
`min(2 ^ n, 60)` seconds of backoff, and for every `n ≥ 6` that backoff
component is exactly 60 seconds. -/
theorem rateLimiter_request_backoff_cap (rl : RateLimiter) (jitter : ℚ)
    (h : 0 < rl.error_count) :
    requestDelay rl jitter = jitter + min ((2 : ℚ) ^ rl.error_count.toNat) 60 ∧
    (6 ≤ rl.error_count → requestDelay rl jitter = jitter + 60) := by
  constructor
  · simp [requestDelay, requestBackoff, h]
  · intro h6
    have hn : 6 ≤ rl.error_count.toNat := by omega
    have hpow : (60 : ℚ) ≤ (2 : ℚ) ^ rl.error_count.toNat := by
      calc (60 : ℚ) ≤ (2 : ℚ) ^ 6 := by norm_num
        _ ≤ (2 : ℚ) ^ rl.error_count.toNat :=
            pow_le_pow_right₀ (by norm_num) hn
    simp [requestDelay, requestBackoff, h, min_eq_right hpow]

/-- Witness for `rateLimiter_request_backoff_cap` at `error_count = 7`,
`jitter = 4`. -/
theorem rateLimiter_request_backoff_cap_witness :
    requestDelay { RateLimiter.init with error_count := 7 } 4 =
        4 + min ((2 : ℚ) ^ (7 : ℤ).toNat) 60 ∧
      requestDelay { RateLimiter.init with error_count := 7 } 4 = 4 + 60 := by
  have h := rateLimiter_request_backoff_cap
    { RateLimiter.init with error_count := 7 } 4 (by norm_num)
  exact ⟨h.1, h.2 (by norm_num)⟩

/-- C4: starting from the initial state, the `k`-th consecutive
`report_error(403)` call (1-indexed, no success in between) first brings
`consecutive_error_count` to `k` and then sleeps synchronously for exactly
the ladder value `{30, 60, 120}` indexed by `min(k - 1, 2)`: 30s on the
first call, 60s on the second, and 120s on the third and every later call. -/
theorem rateLimiter_403_ladder (k : ℕ) (hk : 1 ≤ k) :
    (stateAfterErrors RateLimiter.init k).error_count = k ∧
    sleepAtCall RateLimiter.init k =
      some (if k = 1 then 30 else if k = 2 then 60 else 120) := by
  have hcount : ∀ n : ℕ, (stateAfterErrors RateLimiter.init n).error_count = n := by
    intro n
    simpa [RateLimiter.init] using stateAfterErrors_error_count RateLimiter.init n
  refine ⟨hcount k, ?_⟩
  have hrun : sleepAtCall RateLimiter.init k =
      pyGet waitTimes (min ((k : ℤ) - 1) ((waitTimes.length : ℤ) - 1)) := by
    simp only [sleepAtCall, on_error, hcount (k - 1)]
    norm_num
    congr 2
    omega
  rw [hrun]
  rcases lt_or_ge k 3 with h3 | h3
  · interval_cases k
    · decide
    · decide
  · have hmin : min ((k : ℤ) - 1) ((waitTimes.length : ℤ) - 1) = 2 := by
      have : ((waitTimes.length : ℤ) - 1) = 2 := by decide
      rw [this]
      omega
    have h1 : ¬ (k = 1) := by omega
    have h2 : ¬ (k = 2) := by omega
    rw [hmin, if_neg h1, if_neg h2]
    decide

/-- Witness for `rateLimiter_403_ladder` at the fourth consecutive 403:
the ladder saturates at 120s. -/
theorem rateLimiter_403_ladder_witness :
    (stateAfterErrors RateLimiter.init 4).error_count = 4 ∧
    sleepAtCall RateLimiter.init 4 =
      some (if 4 = 1 then 30 else if 4 = 2 then 60 else 120) :=
  rateLimiter_403_ladder 4 (by norm_num)

/-- C5: `consecutive_error_count` is increased by exactly 1 by
`report_error` (any code), reset to 0 by `report_success`, left unchanged
by both pacing operations, and over every operation sequence from the
initial state it is never negative. -/
theorem rateLimiter_error_count_invariant :
    (∀ (rl : RateLimiter) (c : Option ℤ),
        ((on_error rl c).1).error_count = rl.error_count + 1) ∧
    (∀ rl : RateLimiter, (on_success rl).error_count = 0) ∧
    (∀ (rl : RateLimiter) (j n : ℚ),
        (wait_for_request rl j n).error_count = rl.error_count ∧
        (wait_for_download rl j n).error_count = rl.error_count) ∧
    (∀ ops : List RLOp, 0 ≤ (runOps RateLimiter.init ops).error_count) := by
  refine ⟨?_, ?_, ?_, ?_⟩
  · intro rl c
    simp only [on_error]
    split <;> rfl
  · intro rl
    rfl
  · intro rl j n
    exact ⟨rfl, rfl⟩
  · intro ops
    exact runOps_error_count_nonneg RateLimiter.init (by decide) ops

/-! ## YouTubeDownloader.download_video (src/youtube_downloader.py, lines 277-356)

The downloader's statistics dictionary, the outcome of the two network
steps (`extract_info` and `ydl.download`), the filesystem existence check
and the metadata save are modelled explicitly.  The function also records
the ordered trace of pacing waits, network calls and the existence check,
so that ordering claims can be stated. -/

structure Stats where
  total : ℕ
  success : ℕ
  failed : ℕ
  skipped : ℕ
deriving DecidableEq, Repr

/-- The statistics dictionary as initialized in `YouTubeDownloader.__init__`
(lines 127-132): all four counters start at 0. -/
def Stats.init : Stats := ⟨0, 0, 0, 0⟩

/-- Does `needle` occur as a contiguous sublist of the first argument?
(Python `needle in haystack` on strings, over character lists.) -/
def hasSubstr : List Char → List Char → Bool
  | [], needle => needle.isEmpty
  | c :: t, needle => needle.isPrefixOf (c :: t) || hasSubstr t needle

/-- Python's `needle in haystack` substring test. -/
def pyIn (needle hay : String) : Bool :=
  hasSubstr hay.toList needle.toList

/-- The 403 detection of the `DownloadError` handler (line 342):
`'403' in error_msg or 'Forbidden' in error_msg`. -/
def mentions403 (msg : String) : Bool :=
  pyIn "403" msg || pyIn "Forbidden" msg

/-- Outcome of one external network step (`extract_info` or
`ydl.download`): success, a `yt_dlp.utils.DownloadError`, or any other
exception. -/
inductive NetOutcome
  | ok
  | dlError (msg : String)
  | exn (msg : String)
deriving DecidableEq, Repr

/-- The environment of one `download_video` call: the sampled jitters, the
wall-clock readings at the two pacing calls, the outcomes of the two
network steps, the id reported by `extract_info`, whether both the media
file and the metadata file already exist, and whether the local metadata
save raises. -/
structure DLEnv where
  jitterReq : ℚ
  now1 : ℚ
  jitterDl : ℚ
  now2 : ℚ
  extract : NetOutcome
  videoId : String
  filesExist : Bool
  download : NetOutcome
  saveRaises : Bool
deriving DecidableEq, Repr

/-- Observable steps of `download_video`, in execution order. -/
inductive Event
  | waitForRequest
  | netExtractInfo
  | checkExists
  | waitForDownload
  | netDownload
deriving DecidableEq, Repr

/-- Result of one `download_video` call: updated statistics, updated rate
limiter, the returned `(success, video_id)` pair, and the event trace. -/
structure DVOut where
  stats : Stats
  rl : RateLimiter
  retOk : Bool
  retId : Option String
  events : List Event
deriving DecidableEq, Repr

/-- `YouTubeDownloader.download_video` (lines 277-356).  Control flow from
the source: increment `total`; `wait_for_request`; `extract_info` (network);
if both the audio file and metadata file exist, count a skip and return
`(True, video_id)`; otherwise `wait_for_download`, then `ydl.download`
(network) and the metadata save.  A `DownloadError` whose message mentions
403/Forbidden reports `on_error(403)`, any other `DownloadError` or
exception reports `on_error()`; both count a failure and return
`(False, None)`; a full success counts `success` and reports `on_success`. -/
def download_video (stats : Stats) (rl : RateLimiter) (env : DLEnv) : DVOut :=
  let stats := { stats with total := stats.total + 1 }
  let rl := wait_for_request rl env.jitterReq env.now1
  match env.extract with
  | .dlError msg =>
      let rl := if mentions403 msg then (on_error rl (some 403)).1 else (on_error rl none).1
      { stats := { stats with failed := stats.failed + 1 }, rl := rl,
        retOk := false, retId := none,
        events := [Event.waitForRequest, Event.netExtractInfo] }
  | .exn _ =>
      { stats := { stats with failed := stats.failed + 1 }, rl := (on_error rl none).1,
        retOk := false, retId := none,
        events := [Event.waitForRequest, Event.netExtractInfo] }
  | .ok =>
      if env.filesExist then
        { stats := { stats with skipped := stats.skipped + 1 }, rl := rl,
          retOk := true, retId := some env.videoId,
          events := [Event.waitForRequest, Event.netExtractInfo, Event.checkExists] }
      else
        let rl := wait_for_download rl env.jitterDl env.now2
        match env.download with
        | .dlError msg =>
            let rl := if mentions403 msg then (on_error rl (some 403)).1 else (on_error rl none).1
            { stats := { stats with failed := stats.failed + 1 }, rl := rl,
              retOk := false, retId := none,
              events := [Event.waitForRequest, Event.netExtractInfo, Event.checkExists,
                Event.waitForDownload, Event.netDownload] }
        | .exn _ =>
            { stats := { stats with failed := stats.failed + 1 }, rl := (on_error rl none).1,
              retOk := false, retId := none,
              events := [Event.waitForRequest, Event.netExtractInfo, Event.checkExists,
                Event.waitForDownload, Event.netDownload] }
        | .ok =>
            if env.saveRaises then
              { stats := { stats with failed := stats.failed + 1 }, rl := (on_error rl none).1,
                retOk := false, retId := none,
                events := [Event.waitForRequest, Event.netExtractInfo, Event.checkExists,
                  Event.waitForDownload, Event.netDownload] }
            else
              { stats := { stats with success := stats.success + 1 }, rl := on_success rl,
                retOk := true, retId := some env.videoId,
                events := [Event.waitForRequest, Event.netExtractInfo, Event.checkExists,
                  Event.waitForDownload, Event.netDownload] }

/-- An already-downloaded video: info extraction succeeds and both local
files exist. -/
def envSkip : DLEnv :=
  { jitterReq := 0, now1 := 100, jitterDl := 0, now2 := 200,
    extract := NetOutcome.ok, videoId := "abc123", filesExist := true,
    download := NetOutcome.ok, saveRaises := false }

/-- C1 as stated: on the already-downloaded path, `download_video`
performs no pacing wait and no outbound network call at all (the existence
check would come before `wait_for_request` and before any request). -/
def skipBeforePacingClaim : Prop :=
  ∀ (stats : Stats) (rl : RateLimiter) (env : DLEnv),
    env.extract = NetOutcome.ok → env.filesExist = true →
      Event.waitForRequest ∉ (download_video stats rl env).events ∧
      Event.netExtractInfo ∉ (download_video stats rl env).events

/-- C1 counterexample: the claim as stated is false — even when both files
already exist, `download_video` first calls `wait_for_request` and performs
the `extract_info` network request, and only then checks for the files
(`envSkip` is a concrete such input). -/
theorem downloadVideo_skip_counterexample : ¬ skipBeforePacingClaim :=
  fun h => (h Stats.init RateLimiter.init envSkip rfl rfl).1 (by decide)

/-- C1 (amended): when info extraction succeeds and both the media file
and the companion metadata file exist, `download_video` returns the skip
outcome `(True, video_id)`, increments only the `skipped` counter, and the
existence check happens before `wait_for_download` and before the download
request — but after `wait_for_request` and after the one info-extraction
request. -/
theorem downloadVideo_skip_amended (stats : Stats) (rl : RateLimiter) (env : DLEnv)
    (hex : env.extract = NetOutcome.ok) (hf : env.filesExist = true) :
    (download_video stats rl env).retOk = true ∧
    (download_video stats rl env).retId = some env.videoId ∧
    (download_video stats rl env).stats.skipped = stats.skipped + 1 ∧
    (download_video stats rl env).events =
      [Event.waitForRequest, Event.netExtractInfo, Event.checkExists] ∧
    Event.waitForDownload ∉ (download_video stats rl env).events ∧
    Event.netDownload ∉ (download_video stats rl env).events := by
  simp [download_video, hex, hf]

/-- Witness for `downloadVideo_skip_amended` at `envSkip`. -/
theorem downloadVideo_skip_amended_witness :
    (download_video Stats.init RateLimiter.init envSkip).retId = some "abc123" ∧
    (download_video Stats.init RateLimiter.init envSkip).events =
      [Event.waitForRequest, Event.netExtractInfo, Event.checkExists] := by
  have h := downloadVideo_skip_amended Stats.init RateLimiter.init envSkip rfl rfl
  exact ⟨h.2.1, h.2.2.2.1⟩

/-- A fresh successful download: files absent, both network steps succeed,
metadata save succeeds. -/
def envFresh : DLEnv :=
  { jitterReq := 1, now1 := 10, jitterDl := 2, now2 := 20,
    extract := NetOutcome.ok, videoId := "vid1", filesExist := false,
    download := NetOutcome.ok, saveRaises := false }

/-- C10: the statistics invariant `total = success + failed + skipped`
holds after initialization, and every `download_video` call increments
`total` by exactly 1 and exactly one of `success`/`failed`/`skipped` by
exactly 1 (on the skip path, the success path, both download-error paths
and the unexpected-exception path), preserving the invariant. -/
theorem downloadVideo_stats_partition (stats : Stats) (rl : RateLimiter) (env : DLEnv)
    (hinv : stats.total = stats.success + stats.failed + stats.skipped) :
    Stats.init.total = Stats.init.success + Stats.init.failed + Stats.init.skipped ∧
    (download_video stats rl env).stats.total = stats.total + 1 ∧
    (((download_video stats rl env).stats.success = stats.success + 1 ∧
      (download_video stats rl env).stats.failed = stats.failed ∧
      (download_video stats rl env).stats.skipped = stats.skipped) ∨
     ((download_video stats rl env).stats.failed = stats.failed + 1 ∧
      (download_video stats rl env).stats.success = stats.success ∧
      (download_video stats rl env).stats.skipped = stats.skipped) ∨
     ((download_video stats rl env).stats.skipped = stats.skipped + 1 ∧
      (download_video stats rl env).stats.success = stats.success ∧
      (download_video stats rl env).stats.failed = stats.failed)) ∧
    (download_video stats rl env).stats.total =
      (download_video stats rl env).stats.success +
        (download_video stats rl env).stats.failed +
        (download_video stats rl env).stats.skipped := by
  refine ⟨rfl, ?_⟩
  cases hx : env.extract <;>
    cases hf : env.filesExist <;>
      cases hd : env.download <;>
        cases hs : env.saveRaises <;>
          simp [download_video, hx, hf, hd, hs] <;> omega

/-- Witness for `downloadVideo_stats_partition` on a fresh successful
download from the initial statistics. -/
theorem downloadVideo_stats_partition_witness :
    (download_video Stats.init RateLimiter.init envFresh).stats.total =
      (download_video Stats.init RateLimiter.init envFresh).stats.success +
        (download_video Stats.init RateLimiter.init envFresh).stats.failed +
        (download_video Stats.init RateLimiter.init envFresh).stats.skipped :=
  (downloadVideo_stats_partition Stats.init RateLimiter.init envFresh rfl).2.2.2

/-! ## TurboScribeBatch (src/turboscribe_batch.py) and the parallel
orchestrator (src/batch_from_file_parallel.py)

`process_single_url` posts one URL to the resolution endpoint and builds a
result dictionary.  External effects are oracle fields: the POST outcome,
the decoded response body (`_decode_response_content` recovers internally
and never raises), the HTML save (`_save_html_response` can raise an
OSError, which the caller does NOT catch — its `except` clause only
catches `requests.exceptions.RequestException`), and the audio download
(`_download_audio` catches its own exceptions and returns `None` on
failure).  The HTML link extractor (`_extract_audio_link`, a black-box
`HTMLParser`) is a function parameter. -/

/-- Outcome of `self.session.post(...)`: a response `(status_code, text)`,
or a raised `requests.exceptions.RequestException`. -/
inductive PostOutcome
  | resp (statusCode : ℕ) (text : String)
  | raised (msg : String)
deriving DecidableEq, Repr

/-- Outcome of `_save_html_response`: the saved file path, or a raised
OSError (directory creation / file write failure). -/
inductive HtmlSave
  | saved (path : String)
  | ioError (msg : String)
deriving DecidableEq, Repr

/-- Oracle for one `process_single_url` call. -/
structure SingleEnv where
  post : PostOutcome
  decoded : String
  htmlSave : HtmlSave
  audioDownload : Option String
deriving DecidableEq, Repr

/-- The per-URL result dictionary.  Missing keys are `none`: the success
dictionary carries url/status/response/status_code/html_file/audio_file,
the non-200 dictionary url/status/error/response, the exception dictionary
url/status/error; `audio_link` is added only by the parallel phase 1. -/
structure TSResult where
  url : String
  status : String
  statusCode : Option ℕ
  error : Option String
  response : Option String
  htmlFile : Option String
  audioFile : Option String
  audioLink : Option String
deriving DecidableEq, Repr, Inhabited

/-- Return of `process_single_url`: a result dictionary, or an uncaught
exception propagating to the caller. -/
inductive PSUOut
  | ret (r : TSResult)
  | raised (msg : String)
deriving DecidableEq, Repr

/-- Python truthiness of an optional string (`None` and `""` are falsy). -/
def optStrTruthy : Option String → Bool
  | none => false
  | some s => !(s == "")

/-- The success dictionary built in the 200 branch (lines 259-284): the
audio download runs only when `download_audio` is set, the decoded content
is truthy and the extractor finds a truthy link. -/
def successResult (extract : String → Option String) (url : String) (download_audio : Bool)
    (env : SingleEnv) (decoded : String) (htmlFile : Option String) : TSResult :=
  let audioFile : Option String :=
    if download_audio && !(decoded == "") && optStrTruthy (extract decoded) then
      env.audioDownload
    else none
  { url := url, status := "success", statusCode := some 200, error := none,
    response := some decoded, htmlFile := htmlFile, audioFile := audioFile,
    audioLink := none }

/-- `TurboScribeBatch.process_single_url` (lines 235-300).  POST the URL;
on a `RequestException` return the `"error"` dictionary; on HTTP 200 decode
the body, save the HTML when requested (an OSError here is NOT caught and
propagates), attempt the audio download when requested, and return the
`"success"` dictionary; on any other status return the `"failed"`
dictionary with detail `"HTTP <code>"`. -/
def process_single_url (extract : String → Option String) (url : String)
    (save_html download_audio : Bool) (env : SingleEnv) : PSUOut :=
  match env.post with
  | PostOutcome.raised e =>
      PSUOut.ret { url := url, status := "error", statusCode := none, error := some e,
                   response := none, htmlFile := none, audioFile := none, audioLink := none }
  | PostOutcome.resp code text =>
      if code = 200 then
        let decoded := env.decoded
        if save_html && !(decoded == "") then
          match env.htmlSave with
          | HtmlSave.ioError e => PSUOut.raised e
          | HtmlSave.saved path =>
              PSUOut.ret (successResult extract url download_audio env decoded (some path))
        else
          PSUOut.ret (successResult extract url download_audio env decoded none)
      else
        PSUOut.ret { url := url, status := "failed", statusCode := none,
                     error := some ("HTTP " ++ toString code), response := some text,
                     htmlFile := none, audioFile := none, audioLink := none }

/-- Return of `process_batch`: the result list, or an uncaught exception
(in which case no result list is produced at all). -/
inductive BatchOut
  | ret (results : List TSResult)
  | raised (msg : String)
deriving DecidableEq, Repr

/-- The loop of `TurboScribeBatch.process_batch` (lines 366-382), with
`oracle i` the environment of the `i`-th request.  An exception from any
item propagates and discards everything. -/
def processBatchGo (extract : String → Option String) (oracle : ℕ → SingleEnv)
    (save_html download_audio : Bool) : ℕ → List String → BatchOut
  | _, [] => BatchOut.ret []
  | i, url :: rest =>
      match process_single_url extract url save_html download_audio (oracle i) with
      | PSUOut.raised e => BatchOut.raised e
      | PSUOut.ret r =>
          match processBatchGo extract oracle save_html download_audio (i + 1) rest with
          | BatchOut.raised e => BatchOut.raised e
          | BatchOut.ret rs => BatchOut.ret (r :: rs)

/-- `TurboScribeBatch.process_batch` (lines 354-382): process every URL in
input order, appending one result per URL. -/
def process_batch (extract : String → Option String) (oracle : ℕ → SingleEnv)
    (urls : List String) (save_html download_audio : Bool) : BatchOut :=
  processBatchGo extract oracle save_html download_audio 0 urls

/-- Phase 1 body of `ParallelAudioDownloader.process_with_parallel_download`
(lines 78-96): `process_single_url` with `save_html=True`,
`download_audio=False`; when the item succeeded with a truthy response,
extract the audio link and store it under `audio_link`. -/
def phase1Item (extract : String → Option String) (url : String) (env : SingleEnv) : PSUOut :=
  match process_single_url extract url true false env with
  | PSUOut.raised e => PSUOut.raised e
  | PSUOut.ret r =>
      if r.status == "success" && optStrTruthy r.response then
        PSUOut.ret { r with audioLink := extract (r.response.getD "") }
      else PSUOut.ret r

/-- The serial phase-1 loop of the parallel orchestrator. -/
def phase1Go (extract : String → Option String) (oracle : ℕ → SingleEnv) :
    ℕ → List String → BatchOut
  | _, [] => BatchOut.ret []
  | i, url :: rest =>
      match phase1Item extract url (oracle i) with
      | PSUOut.raised e => BatchOut.raised e
      | PSUOut.ret r =>
          match phase1Go extract oracle (i + 1) rest with
          | BatchOut.raised e => BatchOut.raised e
          | BatchOut.ret rs => BatchOut.ret (r :: rs)

/-- `ParallelAudioDownloader.download_audio_task` (lines 49-63): for a
successful item with a truthy audio link, download and store `audio_file`
(`dl i` is the `_download_audio` outcome for item `i`); otherwise return
the result unchanged. -/
def download_audio_task (dl : ℕ → Option String) (i : ℕ) (r : TSResult) : TSResult :=
  if r.status == "success" && optStrTruthy r.audioLink then
    { r with audioFile := dl i }
  else r

/-- `ParallelAudioDownloader.process_with_parallel_download` (lines
65-118): serial ordered phase 1, then the phase-2 worker pool, which
mutates each submitted result dictionary in place — the returned list is
the phase-1 list with `download_audio_task` applied to each element. -/
def process_with_parallel_download (extract : String → Option String)
    (oracle : ℕ → SingleEnv) (dl : ℕ → Option String) (urls : List String) : BatchOut :=
  match phase1Go extract oracle 0 urls with
  | BatchOut.raised e => BatchOut.raised e
  | BatchOut.ret results =>
      BatchOut.ret ((results.enum).map (fun p => download_audio_task dl p.1 p.2))

/-- No-OSError condition for one item: whenever the 200 branch would
attempt the HTML save, that save succeeds. -/
def htmlSafeB (save_html : Bool) (env : SingleEnv) : Bool :=
  match env.post with
  | PostOutcome.raised _ => true
  | PostOutcome.resp code _ =>
      if code = 200 then
        if save_html && !(env.decoded == "") then
          match env.htmlSave with
          | HtmlSave.saved _ => true
          | HtmlSave.ioError _ => false
        else true
      else true

/-- The per-item outcome `process_single_url` records for its environment:
a `RequestException` becomes the `"error"` dictionary carrying the message,
HTTP 200 becomes `"success"`, any other status becomes `"failed"` with
detail `"HTTP <code>"`. -/
def capture (env : SingleEnv) (r : TSResult) : Prop :=
  match env.post with
  | PostOutcome.raised e => r.status = "error" ∧ r.error = some e
  | PostOutcome.resp code _ =>
      if code = 200 then r.status = "success" ∧ r.error = none
      else r.status = "failed" ∧ r.error = some ("HTTP " ++ toString code)

theorem process_single_url_spec (extract : String → Option String) (url : String)
    (sh da : Bool) (env : SingleEnv) (h : htmlSafeB sh env = true) :
    ∃ r, process_single_url extract url sh da env = PSUOut.ret r ∧
      r.url = url ∧ capture env r := by
  cases hp : env.post with
  | raised e =>
      refine ⟨{ url := url, status := "error", statusCode := none, error := some e,
                response := none, htmlFile := none, audioFile := none, audioLink := none },
              ?_, rfl, ?_⟩
      · simp [process_single_url, hp]
      · simp [capture, hp]
  | resp code text =>
      by_cases hc : code = 200
      · subst hc
        by_cases hs : (sh && !(env.decoded == "")) = true
        · cases hh : env.htmlSave with
          | ioError e =>
              exfalso
              simp [htmlSafeB, hp, hs, hh] at h
          | saved path =>
              refine ⟨successResult extract url da env env.decoded (some path), ?_, rfl, ?_⟩
              · simp [process_single_url, hp, hs, hh]
              · simp [capture, hp, successResult]
        · refine ⟨successResult extract url da env env.decoded none, ?_, rfl, ?_⟩
          · simp [process_single_url, hp, hs]
          · simp [capture, hp, successResult]
      · refine ⟨{ url := url, status := "failed", statusCode := none,
                  error := some ("HTTP " ++ toString code), response := some text,
                  htmlFile := none, audioFile := none, audioLink := none }, ?_, rfl, ?_⟩
        · simp [process_single_url, hp, hc]
        · simp [capture, hp, hc]

theorem processBatchGo_spec (extract : String → Option String) (oracle : ℕ → SingleEnv)
    (sh da : Bool) :
    ∀ (urls : List String) (i : ℕ),
      (∀ j, j < urls.length → htmlSafeB sh (oracle (i + j)) = true) →
      ∃ rs, processBatchGo extract oracle sh da i urls = BatchOut.ret rs ∧
        rs.map TSResult.url = urls ∧
        rs.length = urls.length ∧
        ∀ j, j < urls.length → capture (oracle (i + j)) (rs.getD j default) := by
  intro urls
  induction urls with
  | nil =>
      intro i _
      exact ⟨[], rfl, rfl, rfl, fun j hj => absurd hj (by simp)⟩
  | cons url rest ih =>
      intro i h
      obtain ⟨r, hr, hurl, hcap⟩ :=
        process_single_url_spec extract url sh da (oracle i)
          (by simpa using h 0 (by simp))
      obtain ⟨rs, hrs, hmap, hlen, hcaps⟩ := ih (i + 1) (fun j hj => by
        have hstep := h (j + 1) (by simpa using Nat.succ_lt_succ hj)
        have harith : i + (j + 1) = i + 1 + j := by omega
        rwa [harith] at hstep)
      refine ⟨r :: rs, ?_, ?_, ?_, ?_⟩
      · simp [processBatchGo, hr, hrs]
      · simp [hmap, hurl]
      · simp [hlen]
      · intro j hj
        cases j with
        | zero => simpa using hcap
        | succ j0 =>
            have hj0 : j0 < rest.length := by simpa using hj
            have hc := hcaps j0 hj0
            have harith : i + 1 + j0 = i + (j0 + 1) := by omega
            rw [harith] at hc
            simpa using hc

theorem download_audio_task_url (dl : ℕ → Option String) (i : ℕ) (r : TSResult) :
    (download_audio_task dl i r).url = r.url := by
  simp only [download_audio_task]
  split <;> rfl

theorem phase1Item_spec (extract : String → Option String) (url : String) (env : SingleEnv)
    (h : htmlSafeB true env = true) :
    ∃ r, phase1Item extract url env = PSUOut.ret r ∧ r.url = url := by
  obtain ⟨r, hr, hurl, _⟩ := process_single_url_spec extract url true false env h
  simp only [phase1Item, hr]
  by_cases hcond : (r.status == "success" && optStrTruthy r.response) = true
  · refine ⟨{ r with audioLink := extract (r.response.getD "") }, ?_, ?_⟩
    · simp [hcond]
    · simpa using hurl
  · refine ⟨r, ?_, hurl⟩
    simp [hcond]

theorem phase1Go_spec (extract : String → Option String) (oracle : ℕ → SingleEnv) :
    ∀ (urls : List String) (i : ℕ),
      (∀ j, j < urls.length → htmlSafeB true (oracle (i + j)) = true) →
      ∃ rs, phase1Go extract oracle i urls = BatchOut.ret rs ∧
        rs.map TSResult.url = urls := by
  intro urls
  induction urls with
  | nil => intro i _; exact ⟨[], rfl, rfl⟩
  | cons url rest ih =>
      intro i h
      obtain ⟨r, hr, hurl⟩ :=
        phase1Item_spec extract url (oracle i) (by simpa using h 0 (by simp))
      obtain ⟨rs, hrs, hmap⟩ := ih (i + 1) (fun j hj => by
        have hstep := h (j + 1) (by simpa using Nat.succ_lt_succ hj)
        have harith : i + (j + 1) = i + 1 + j := by omega
        rwa [harith] at hstep)
      exact ⟨r :: rs, by simp [phase1Go, hr, hrs], by simp [hmap, hurl]⟩

theorem enumFrom_task_url (dl : ℕ → Option String) :
    ∀ (rs : List TSResult) (n : ℕ),
      ((List.enumFrom n rs).map (fun p => download_audio_task dl p.1 p.2)).map TSResult.url
        = rs.map TSResult.url := by
  intro rs
  induction rs with
  | nil => intro n; rfl
  | cons r t ih =>
      intro n
      simp [List.enumFrom, ih, download_audio_task_url]

/-- C6: for every input URL list of length N (and any environment in which
no item's HTML save raises an OSError), both batch orchestrators — the
sequential `process_batch` and the two-phase
`process_with_parallel_download` — return exactly N results, in input
order, with the result at index i carrying the URL at index i. -/
theorem batch_preserves_urls (extract : String → Option String) (oracle : ℕ → SingleEnv)
    (dl : ℕ → Option String) (urls : List String) (sh da : Bool)
    (h : ∀ j, j < urls.length → htmlSafeB true (oracle j) = true) :
    (∃ rs, process_batch extract oracle urls sh da = BatchOut.ret rs ∧
       rs.length = urls.length ∧ rs.map TSResult.url = urls) ∧
    (∃ rs, process_with_parallel_download extract oracle dl urls = BatchOut.ret rs ∧
       rs.length = urls.length ∧ rs.map TSResult.url = urls) := by
  have hany : ∀ j, j < urls.length → htmlSafeB sh (oracle j) = true := by
    intro j hj
    cases hshv : sh with
    | false =>
        have := h j hj
        cases hp : (oracle j).post with
        | raised e => simp [htmlSafeB, hp]
        | resp code text => simp [htmlSafeB, hp]
    | true => exact h j hj
  constructor
  · obtain ⟨rs, hrs, hmap, hlen, _⟩ :=
      processBatchGo_spec extract oracle sh da urls 0 (fun j hj => by simpa using hany j hj)
    exact ⟨rs, hrs, hlen, hmap⟩
  · obtain ⟨rs, hrs, hmap⟩ :=
      phase1Go_spec extract oracle urls 0 (fun j hj => by simpa using h j hj)
    refine ⟨(rs.enum).map (fun p => download_audio_task dl p.1 p.2), ?_, ?_, ?_⟩
    · simp [process_with_parallel_download, hrs]
    · have h1 : rs.length = urls.length := by
        have := congrArg List.length hmap
        simpa using this
      simp [List.enum, h1]
    · have := enumFrom_task_url dl rs 0
      simpa [List.enum, hmap] using this

/-- Witness for `batch_preserves_urls`: a one-URL batch in a benign
environment. -/
def envPlain : SingleEnv :=
  { post := PostOutcome.resp 200 "raw", decoded := "body",
    htmlSave := HtmlSave.saved "html_responses/a.html", audioDownload := none }

/-- The repository's HTML link extractor modelled at its interface on an
input where it finds nothing (no anchor with an audio MIME marker). -/
def extractNone : String → Option String := fun _ => none

theorem batch_preserves_urls_witness :
    (∃ rs, process_batch extractNone (fun _ => envPlain) ["u1"] true true = BatchOut.ret rs ∧
       rs.length = 1 ∧ rs.map TSResult.url = ["u1"]) ∧
    (∃ rs, process_with_parallel_download extractNone (fun _ => envPlain)
         (fun _ => none) ["u1"] = BatchOut.ret rs ∧
       rs.length = 1 ∧ rs.map TSResult.url = ["u1"]) := by
  have hsafe : ∀ j, j < (["u1"] : List String).length →
      htmlSafeB true ((fun _ => envPlain) j) = true := by
    intro j _
    show htmlSafeB true envPlain = true
    decide
  have h := batch_preserves_urls extractNone (fun _ => envPlain) (fun _ => none)
    ["u1"] true true hsafe
  simpa using h

/-- C7 (amended): per-item failures that are network errors
(`RequestException`), non-200 HTTP statuses, or audio download/write
failures (caught inside `_download_audio`) never abort the batch: each is
captured in that item's result record and the orchestrator continues,
producing one result per input URL — provided no item's HTML save raises
an OSError (such a local file-write error is NOT caught and aborts the
whole batch, see the counterexample). -/
theorem batch_captures_per_item (extract : String → Option String) (oracle : ℕ → SingleEnv)
    (urls : List String) (sh da : Bool)
    (h : ∀ j, j < urls.length → htmlSafeB sh (oracle j) = true) :
    ∃ rs, process_batch extract oracle urls sh da = BatchOut.ret rs ∧
      rs.length = urls.length ∧
      ∀ j, j < urls.length → capture (oracle j) (rs.getD j default) := by
  obtain ⟨rs, hrs, _, hlen, hcaps⟩ :=
    processBatchGo_spec extract oracle sh da urls 0 (fun j hj => by simpa using h j hj)
  exact ⟨rs, hrs, hlen, fun j hj => by simpa using hcaps j hj⟩

/-- Witness for `batch_captures_per_item`: a one-URL batch whose item has
a benign environment. -/
theorem batch_captures_per_item_witness :
    ∃ rs, process_batch extractNone (fun _ => envPlain) ["u1"] true true = BatchOut.ret rs ∧
      rs.length = 1 ∧
      ∀ j, j < (["u1"] : List String).length →
        capture ((fun _ => envPlain) j) (rs.getD j default) := by
  have hsafe : ∀ j, j < (["u1"] : List String).length →
      htmlSafeB true ((fun _ => envPlain) j) = true := by
    intro j _
    show htmlSafeB true envPlain = true
    decide
  have h := batch_captures_per_item extractNone (fun _ => envPlain) ["u1"] true true hsafe
  simpa using h

/-- An item whose HTML save raises an OSError. -/
def envHtmlBoom : SingleEnv :=
  { post := PostOutcome.resp 200 "raw", decoded := "body",
    htmlSave := HtmlSave.ioError "disk full", audioDownload := none }

/-- C7 counterexample: the claim as stated is false for local file-write
errors while saving the HTML response.  `_save_html_response` raising an
OSError (here "disk full" on the first of two URLs) is not caught by
`process_single_url` (whose handler only catches `RequestException`), so
the batch aborts: no result list is produced and the second URL is never
processed. -/
theorem batch_abort_counterexample :
    process_batch extractNone (fun _ => envHtmlBoom) ["u1", "u2"] true true =
      BatchOut.raised "disk full" := by
  rfl

/-- C2 (amended): when resolution succeeds (HTTP 200) but the link
extractor returns none, the pipeline does NOT produce a Failed /
"no media link" result: the item's result keeps status "success" with no
audio file and no error detail. -/
theorem noLink_keeps_success (extract : String → Option String) (url text : String)
    (sh : Bool) (env : SingleEnv)
    (hp : env.post = PostOutcome.resp 200 text)
    (hnolink : extract env.decoded = none)
    (hsafe : htmlSafeB sh env = true) :
    ∃ r, process_single_url extract url sh true env = PSUOut.ret r ∧
      r.status = "success" ∧ r.audioFile = none ∧ r.error = none := by
  by_cases hs : (sh && !(env.decoded == "")) = true
  · cases hh : env.htmlSave with
    | ioError e =>
        exfalso
        simp [htmlSafeB, hp, hs, hh] at hsafe
    | saved path =>
        refine ⟨successResult extract url true env env.decoded (some path), ?_, rfl, ?_, rfl⟩
        · simp [process_single_url, hp, hs, hh]
        · simp [successResult, hnolink, optStrTruthy]
  · refine ⟨successResult extract url true env env.decoded none, ?_, rfl, ?_, rfl⟩
    · simp [process_single_url, hp, hs]
    · simp [successResult, hnolink, optStrTruthy]

/-- Witness for `noLink_keeps_success` at a concrete 200-response whose
body contains no audio link. -/
theorem noLink_keeps_success_witness :
    ∃ r, process_single_url extractNone "u" true true envPlain = PSUOut.ret r ∧
      r.status = "success" ∧ r.audioFile = none ∧ r.error = none :=
  noLink_keeps_success extractNone "u" "raw" true envPlain rfl rfl (by decide)

/-- The concrete result produced for a 200 response with no audio link. -/
def resultNoLink : TSResult :=
  { url := "u", status := "success", statusCode := some 200, error := none,
    response := some "body", htmlFile := some "html_responses/a.html",
    audioFile := none, audioLink := none }

/-- C2 counterexample: at a concrete work item whose resolution succeeds
(HTTP 200) while the link extractor returns none, the produced result has
status "success" — not "failed" — and carries no "no media link" error
detail (the code only logs a warning, line 275). -/
theorem noLink_counterexample :
    process_single_url extractNone "u" true true envPlain = PSUOut.ret resultNoLink ∧
    resultNoLink.status ≠ "failed" ∧
    resultNoLink.error ≠ some "no media link" := by
  refine ⟨by rfl, by decide, by decide⟩

/-! ## Printed summaries (src/youtube_downloader.py lines 446-462,
src/turboscribe_batch.py lines 396-413)

Each `print_summary` is modelled as the record of values it prints. -/

structure SummaryYT where
  total : ℕ
  success : ℕ
  skipped : ℕ
  failed : ℕ
  success_rate : Option ℚ
deriving DecidableEq, Repr

/-- `YouTubeDownloader.print_summary`: prints the four counters always and
the success rate `(success / total) * 100` only when `total > 0`. -/
def print_summary (s : Stats) : SummaryYT :=
  { total := s.total, success := s.success, skipped := s.skipped, failed := s.failed,
    success_rate :=
      if 0 < s.total then some ((s.success : ℚ) / (s.total : ℚ) * 100) else none }

structure SummaryTS where
  total : ℕ
  success : ℕ
  failed : ℕ
deriving DecidableEq, Repr

/-- `TurboScribeBatch.print_summary`: prints a total, a success count
(results with status "success") and `failed = total - success`; it prints
no skipped count and no percentage. -/
def ts_print_summary (results : List TSResult) : SummaryTS :=
  let total := results.length
  let success := (results.filter (fun r => r.status == "success")).length
  { total := total, success := success, failed := total - success }

theorem filter_success_split (results : List TSResult) :
    (results.filter (fun r => r.status == "success")).length +
      (results.filter (fun r => !(r.status == "success"))).length = results.length := by
  induction results with
  | nil => rfl
  | cons r t ih =>
      by_cases hc : (r.status == "success") = true
      · simp [List.filter_cons, hc]
        omega
      · simp [List.filter_cons, hc]
        omega

/-- C8 (amended): the YouTube downloader summary reports the total,
success, skipped and failed counters and — only when `total > 0` — the
derived percentage `success / total * 100` (for an empty run, `total = 0`,
no percentage is reported); the TurboScribe batch summary reports only a
total, a success count and `failed = total - success` (which equals the
number of non-success results), with no skipped count and no percentage. -/
theorem summary_reports (s : Stats) (results : List TSResult) :
    (print_summary s).total = s.total ∧
    (print_summary s).success = s.success ∧
    (print_summary s).skipped = s.skipped ∧
    (print_summary s).failed = s.failed ∧
    (0 < s.total →
      (print_summary s).success_rate = some ((s.success : ℚ) / (s.total : ℚ) * 100)) ∧
    (s.total = 0 → (print_summary s).success_rate = none) ∧
    (ts_print_summary results).total = results.length ∧
    (ts_print_summary results).success =
      (results.filter (fun r => r.status == "success")).length ∧
    (ts_print_summary results).failed =
      (results.filter (fun r => !(r.status == "success"))).length := by
  refine ⟨rfl, rfl, rfl, rfl, ?_, ?_, rfl, rfl, ?_⟩
  · intro h
    simp [print_summary, h]
  · intro h
    simp [print_summary, h]
  · have := filter_success_split results
    simp only [ts_print_summary]
    omega

/-- Witness for `summary_reports` at a 2-item run with one success. -/
theorem summary_reports_witness :
    (print_summary ⟨2, 1, 1, 0⟩).success_rate = some ((1 : ℚ) / (2 : ℚ) * 100) ∧
    (ts_print_summary []).failed = 0 := by
  have h := summary_reports ⟨2, 1, 1, 0⟩ []
  exact ⟨h.2.2.2.2.1 (by norm_num), h.2.2.2.2.2.2.2.2⟩

/-- C8 counterexample: after an empty run (statistics still at their
initial zeros, so `total = 0`) the YouTube summary reports no success
percentage at all, though the claim promises a derived percentage for
every result list; moreover `success / total * 100` is undefined there. -/
theorem summary_counterexample :
    (print_summary Stats.init).success_rate = none := by
  rfl

end YTWeba
